import Mathlib

/-!
# The `bcc::Linker` facade (`lib/Core/Linker.cpp`)

A shallow embedding of the link-session facade.  The session's pointer fields
are `Option`s (`none` is `NULL`); an operation that dereferences a null
pointer has undefined behaviour and is modelled as returning `none`.  The
calls the session makes into the external `mcld` engine and builder are
recorded, in order, in the `calls` field of an operation's `Outcome`; the
pointers the builder hands back are arguments of the operation.
-/

set_option autoImplicit false

/-! ## External collaborators (`mcld`, `llvm::ELF`) -/

namespace llvm.ELF

/-- Section type `SHT_PROGBITS` of `llvm/Support/ELF.h`. -/
def SHT_PROGBITS : Nat := 1

/-- Section flag `SHF_ALLOC`. -/
def SHF_ALLOC : Nat := 0x2

/-- Section flag `SHF_EXECINSTR`. -/
def SHF_EXECINSTR : Nat := 0x4

end llvm.ELF

namespace mcld

/-- The object behind `mcld::LinkerConfig*`; the facade reads only
`options().soname()` from it. -/
structure LinkerConfig where
  soname : String
  deriving DecidableEq, Repr

/-- The object made by `new mcld::Module(name)`. -/
structure Module where
  name : String
  deriving DecidableEq, Repr

/-- The object made by `new mcld::IRBuilder(module, config)`. -/
structure IRBuilder where
  module : Module
  config : LinkerConfig
  deriving DecidableEq, Repr

/-- The object made by `new mcld::Linker()`. -/
inductive Linker where
  | mk
  deriving DecidableEq, Repr

/-- Non-null `mcld::Input*`, by address. -/
abbrev Input := Nat

/-- Non-null `mcld::LDSection*`, by address. -/
abbrev LDSection := Nat

/-- Non-null `mcld::SectionData*`, by address. -/
abbrev SectionData := Nat

/-- Non-null `mcld::Fragment*`, by address. -/
abbrev Fragment := Nat

/-- The enumerator `mcld::Input::Object`, the only input type the facade names. -/
inductive InputType where
  | Object
  deriving DecidableEq, Repr

end mcld

namespace bcc

/-- The `bcc::LinkerConfig` passed to `Linker::config`: `getTriple()` and
`getLDConfig()` (`none` when it returns `NULL`). -/
structure LinkerConfig where
  getTriple : String
  getLDConfig : Option mcld.LinkerConfig
  deriving DecidableEq, Repr

/-- Modelled from the spec: the enumeration `Linker::ErrorCode` of
`bcc/Linker.h`, which is not among the sources.  The enumerators are the ones
`Linker.cpp` names, in the order the specification lists the closed
enumeration: Success, DoubleConfigure, MissingLinkInfo, UnresolvedNameSpec,
CannotOpenObjectFile, NotConfigured, OutputNotConfigured, CannotOpenOutput,
CannotReadSections, CannotReadSymbols, CannotAddStandardSymbols,
CannotOpenMemoryInput, UnknownError. -/
inductive ErrorCode where
  | kSuccess
  | kDoubleConfig
  | kDelegateLDInfo
  | kFindNameSpec
  | kOpenObjectFile
  | kNotConfig
  | kNotSetUpOutput
  | kOpenOutput
  | kReadSections
  | kReadSymbols
  | kAddAdditionalSymbols
  | kOpenMemory
  | kMaxErrorCode
  deriving DecidableEq, Repr

/-- The numeric value of an enumerator: its position in the enumeration. -/
def ErrorCode.toNat : ErrorCode → Nat
  | .kSuccess => 0
  | .kDoubleConfig => 1
  | .kDelegateLDInfo => 2
  | .kFindNameSpec => 3
  | .kOpenObjectFile => 4
  | .kNotConfig => 5
  | .kNotSetUpOutput => 6
  | .kOpenOutput => 7
  | .kReadSections => 8
  | .kReadSymbols => 9
  | .kAddAdditionalSymbols => 10
  | .kOpenMemory => 11
  | .kMaxErrorCode => 12

/-- The enumerators below `kMaxErrorCode`: the defined codes. -/
def ErrorCode.defined : List ErrorCode :=
  [.kSuccess, .kDoubleConfig, .kDelegateLDInfo, .kFindNameSpec, .kOpenObjectFile,
   .kNotConfig, .kNotSetUpOutput, .kOpenOutput, .kReadSections, .kReadSymbols,
   .kAddAdditionalSymbols, .kOpenMemory]

/-- The static table `ErrorString` of `Linker::GetErrorString`, entry by entry. -/
def ErrorString : List String :=
  [ /- kSuccess -/ "Successfully compiled.",
    /- kDoubleConfig -/ "Configure Linker twice.",
    /- kDelegateLDInfo -/ "Cannot get linker information",
    /- kFindNameSpec -/ "Cannot find -lnamespec",
    /- kOpenObjectFile -/ "Cannot open object file",
    /- kNotConfig -/ "Linker::config() is not called",
    /- kNotSetUpOutput -/ "Linker::setOutput() is not called before add input files",
    /- kOpenOutput -/ "Cannot open output file",
    /- kReadSections -/ "Cannot read sections",
    /- kReadSymbols -/ "Cannot read symbols",
    /- kAddAdditionalSymbols -/ "Cannot add standard and target symbols",
    /- kMaxErrorCode -/ "(Unknown error code)" ]

/-- The index `Linker::GetErrorString` reads the table at: the code value,
replaced by `kMaxErrorCode` when it is greater than `kMaxErrorCode`. -/
def GetErrorIndex (pErrCode : Nat) : Nat :=
  if pErrCode > ErrorCode.kMaxErrorCode.toNat then ErrorCode.kMaxErrorCode.toNat else pErrCode

/-- `Linker::GetErrorString`, on the numeric value of the code (a C++ enum
variable can hold a value past the last enumerator).  `none` is a read
outside the table. -/
def GetErrorString (pErrCode : Nat) : Option String :=
  ErrorString[GetErrorIndex pErrCode]?

end bcc

namespace bcc

/-- A call the session makes into the external engine, builder or allocator. -/
inductive Call where
  /-- The call `new mcld::Module(soname)`. -/
  | newModule (soname : String)
  /-- The call `new mcld::IRBuilder(*mModule, *mLDConfig)`. -/
  | newIRBuilder (module : mcld.Module) (config : mcld.LinkerConfig)
  /-- The call `new mcld::Linker()`. -/
  | newLinker
  /-- The call `mLinker->config(*mLDConfig)`. -/
  | linkerConfig (config : mcld.LinkerConfig)
  /-- The call `mBuilder->ReadInput(pNameSpec)`. -/
  | ReadInputNameSpec (pNameSpec : String)
  /-- The call `mBuilder->ReadInput(name, path)`. -/
  | ReadInputPath (name path : String)
  /-- The call `mBuilder->ReadInput(name, pMemory, pSize)`. -/
  | ReadInputMemory (name : String) (pMemory pSize : Nat)
  /-- The call `mBuilder->CreateInput(name, path, type)`. -/
  | CreateInput (name path : String) (type : mcld.InputType)
  /-- The call `mBuilder->CreateELFHeader(*input, name, type, flag, align)`. -/
  | CreateELFHeader (input : mcld.Input) (name : String) (type flag align : Nat)
  /-- The call `mBuilder->CreateSectionData(*sect)`. -/
  | CreateSectionData (sect : mcld.LDSection)
  /-- The call `mBuilder->CreateRegion(pMemory, pSize)`. -/
  | CreateRegion (pMemory pSize : Nat)
  /-- The call `mBuilder->AppendFragment(*frag, *data)`. -/
  | AppendFragment (frag : mcld.Fragment) (data : mcld.SectionData)
  /-- The call `mLinker->link(*mModule, *mBuilder)`. -/
  | link (module : mcld.Module) (builder : mcld.IRBuilder)
  /-- The call `mLinker->emit(mOutputPath)`. -/
  | emitPath (pPath : String)
  /-- The call `mLinker->emit(mOutputHandler)`. -/
  | emitHandler (pFileHandler : Int)
  /-- The call `ALOGE("%s (%s)", message, triple)`. -/
  | ALOGE (message triple : String)
  deriving DecidableEq, Repr

/-- Whether the call is one of the two `emit` overloads of the engine. -/
def Call.isEmit : Call → Bool
  | .emitPath _ => true
  | .emitHandler _ => true
  | _ => false

/-- Whether the call goes to the engine handle `mLinker`. -/
def Call.isEngine : Call → Bool
  | .linkerConfig _ => true
  | .link _ _ => true
  | .emitPath _ => true
  | .emitHandler _ => true
  | _ => false

/-- Whether the call goes to the builder `mBuilder`. -/
def Call.isBuilder : Call → Bool
  | .ReadInputNameSpec _ => true
  | .ReadInputPath _ _ => true
  | .ReadInputMemory _ _ _ => true
  | .CreateInput _ _ _ => true
  | .CreateELFHeader _ _ _ _ _ => true
  | .CreateSectionData _ => true
  | .CreateRegion _ _ => true
  | .AppendFragment _ _ => true
  | _ => false

/-- The fields of a `bcc::Linker` session. -/
structure Linker where
  mLDConfig : Option mcld.LinkerConfig
  mModule : Option mcld.Module
  mLinker : Option mcld.Linker
  mBuilder : Option mcld.IRBuilder
  mOutputPath : String
  mOutputHandler : Int
  deriving DecidableEq, Repr

/-- What an operation that returns leaves behind: the returned code, the
session afterwards, and the external calls it made, in order. -/
structure Outcome where
  code : ErrorCode
  state : Linker
  calls : List Call
  deriving DecidableEq, Repr

namespace Linker

/-- The default constructor `Linker::Linker()`: every pointer `NULL`, the
output path default-constructed (empty), the output handle `-1`. -/
def new : Linker :=
  { mLDConfig := none, mModule := none, mLinker := none, mBuilder := none,
    mOutputPath := "", mOutputHandler := -1 }

/-- `Linker::extractFiles`: stores `pConfig.getLDConfig()` and reports
`kDelegateLDInfo` when it is `NULL`. -/
def extractFiles (self : Linker) (pConfig : LinkerConfig) : ErrorCode × Linker :=
  let self := { self with mLDConfig := pConfig.getLDConfig }
  if self.mLDConfig = none then (.kDelegateLDInfo, self) else (.kSuccess, self)

/-- `Linker::config`.  The code returned by `extractFiles` is dropped, and
`mLDConfig->options()` dereferences the stored pointer whatever it is. -/
def config (self : Linker) (pConfig : LinkerConfig) : Option Outcome :=
  if self.mLDConfig ≠ none then
    some ⟨.kDoubleConfig, self, []⟩
  else
    let self := (self.extractFiles pConfig).2
    match self.mLDConfig with
    | none => none
    | some ld =>
      let module : mcld.Module := ⟨ld.soname⟩
      let builder : mcld.IRBuilder := ⟨module, ld⟩
      some ⟨.kSuccess,
        { self with mModule := some module, mBuilder := some builder, mLinker := some .mk },
        [.newModule ld.soname, .newIRBuilder module ld, .newLinker, .linkerConfig ld]⟩

/-- The constructor `Linker::Linker(const LinkerConfig&)`: fields as in the
default constructor, then `config`, logging the message of a failure code. -/
def newWith (pConfig : LinkerConfig) : Option (Linker × List Call) :=
  let triple := pConfig.getTriple
  match new.config pConfig with
  | none => none
  | some r =>
    if ErrorCode.kSuccess ≠ r.code then
      match GetErrorString r.code.toNat with
      | none => none
      | some msg => some (r.state, r.calls ++ [.ALOGE msg triple])
    else
      some (r.state, r.calls)

/-- `Linker::addNameSpec`; `input` is what `mBuilder->ReadInput` returns. -/
def addNameSpec (self : Linker) (pNameSpec : String) (input : Option mcld.Input) :
    Option Outcome :=
  match self.mBuilder with
  | none => none
  | some _ =>
    if input = none then
      some ⟨.kFindNameSpec, self, [.ReadInputNameSpec pNameSpec]⟩
    else
      some ⟨.kSuccess, self, [.ReadInputNameSpec pNameSpec]⟩

/-- `Linker::addObject(const std::string&)`; `input` is what
`mBuilder->ReadInput` returns. -/
def addObject (self : Linker) (pObjectPath : String) (input : Option mcld.Input) :
    Option Outcome :=
  match self.mBuilder with
  | none => none
  | some _ =>
    if input = none then
      some ⟨.kOpenObjectFile, self, [.ReadInputPath pObjectPath pObjectPath]⟩
    else
      some ⟨.kSuccess, self, [.ReadInputPath pObjectPath pObjectPath]⟩

/-- `Linker::addObject(void*, size_t)`; `input` is what `mBuilder->ReadInput`
returns. -/
def addObjectMemory (self : Linker) (pMemory pSize : Nat) (input : Option mcld.Input) :
    Option Outcome :=
  match self.mBuilder with
  | none => none
  | some _ =>
    if input = none then
      some ⟨.kOpenMemory, self, [.ReadInputMemory "NAN" pMemory pSize]⟩
    else
      some ⟨.kSuccess, self, [.ReadInputMemory "NAN" pMemory pSize]⟩

/-- `Linker::addCode`; `input`, `sect`, `data` and `frag` are what
`CreateInput`, `CreateELFHeader`, `CreateSectionData` and `CreateRegion`
return.  None of them is checked before it is dereferenced. -/
def addCode (self : Linker) (pMemory pSize : Nat) (input : Option mcld.Input)
    (sect : Option mcld.LDSection) (data : Option mcld.SectionData)
    (frag : Option mcld.Fragment) : Option Outcome :=
  match self.mBuilder with
  | none => none
  | some _ =>
    match input with
    | none => none
    | some i =>
      match sect with
      | none => none
      | some s =>
        match frag, data with
        | some f, some d =>
          some ⟨.kSuccess, self,
            [.CreateInput "NAN" "NAN" .Object,
             .CreateELFHeader i ".text" llvm.ELF.SHT_PROGBITS
               (llvm.ELF.SHF_ALLOC ||| llvm.ELF.SHF_EXECINSTR) 0x1,
             .CreateSectionData s,
             .CreateRegion pMemory pSize,
             .AppendFragment f d]⟩
        | _, _ => none

/-- `Linker::setOutput(const std::string&)`. -/
def setOutput (self : Linker) (pPath : String) : Outcome :=
  ⟨.kSuccess, { self with mOutputPath := pPath }, []⟩

/-- `Linker::setOutput(int)`. -/
def setOutputHandler (self : Linker) (pFileHandler : Int) : Outcome :=
  ⟨.kSuccess, { self with mOutputHandler := pFileHandler }, []⟩

/-- `Linker::link`.  It starts with `mLinker->link(*mModule, *mBuilder)`,
which dereferences all three pointers. -/
def link (self : Linker) : Option Outcome :=
  match self.mLinker, self.mModule, self.mBuilder with
  | some _, some module, some builder =>
    if self.mOutputPath ≠ "" then
      some ⟨.kSuccess, self, [.link module builder, .emitPath self.mOutputPath]⟩
    else if -1 ≠ self.mOutputHandler then
      some ⟨.kSuccess, self, [.link module builder, .emitHandler self.mOutputHandler]⟩
    else
      some ⟨.kNotSetUpOutput, self, [.link module builder]⟩
  | _, _, _ => none

end Linker

/-- One operation on a session, with the pointers the builder returns to it. -/
inductive Op where
  | config (pConfig : LinkerConfig)
  | addNameSpec (pNameSpec : String) (input : Option mcld.Input)
  | addObject (pObjectPath : String) (input : Option mcld.Input)
  | addObjectMemory (pMemory pSize : Nat) (input : Option mcld.Input)
  | addCode (pMemory pSize : Nat) (input : Option mcld.Input)
      (sect : Option mcld.LDSection) (data : Option mcld.SectionData)
      (frag : Option mcld.Fragment)
  | setOutput (pPath : String)
  | setOutputHandler (pFileHandler : Int)
  | link
  deriving DecidableEq, Repr

/-- Whether the operation is an input registration. -/
def Op.isRegistration : Op → Bool
  | .addNameSpec _ _ => true
  | .addObject _ _ => true
  | .addObjectMemory _ _ _ => true
  | .addCode _ _ _ _ _ _ => true
  | _ => false

/-- Whether the builder hands the operation every pointer it dereferences
unchecked: for `addCode`, none of the four is `NULL`. -/
def Op.wellServed : Op → Bool
  | .addCode _ _ input sect data frag =>
    input.isSome && sect.isSome && data.isSome && frag.isSome
  | _ => true

namespace Linker

/-- The session performs one operation. -/
def step (self : Linker) : Op → Option Outcome
  | .config pConfig => self.config pConfig
  | .addNameSpec pNameSpec input => self.addNameSpec pNameSpec input
  | .addObject pObjectPath input => self.addObject pObjectPath input
  | .addObjectMemory pMemory pSize input => self.addObjectMemory pMemory pSize input
  | .addCode pMemory pSize input sect data frag =>
    self.addCode pMemory pSize input sect data frag
  | .setOutput pPath => some (self.setOutput pPath)
  | .setOutputHandler pFileHandler => some (self.setOutputHandler pFileHandler)
  | .link => self.link

/-- The session performs the operations in order; the result is the session
afterwards, or `none` as soon as one of them has undefined behaviour. -/
def run (self : Linker) : List Op → Option Linker
  | [] => some self
  | op :: ops =>
    match self.step op with
    | none => none
    | some r => r.state.run ops

/-- All four pointers set: the state of a successfully configured session,
whatever operations followed the `config` that returned `kSuccess`. -/
def Configured (self : Linker) : Prop :=
  self.mLDConfig ≠ none ∧ self.mModule ≠ none ∧ self.mLinker ≠ none ∧ self.mBuilder ≠ none

instance (self : Linker) : Decidable self.Configured := by
  unfold Configured; infer_instance

/-- The four handles a successful `config` stores. -/
def handles (self : Linker) :
    Option mcld.LinkerConfig × Option mcld.Module × Option mcld.Linker × Option mcld.IRBuilder :=
  (self.mLDConfig, self.mModule, self.mLinker, self.mBuilder)

end Linker

/-- A configuration whose derived link configuration is present. -/
def sampleConfig : LinkerConfig :=
  { getTriple := "armv7-none-linux-gnueabi", getLDConfig := some ⟨"libout.so"⟩ }

/-- The session `Linker::config(sampleConfig)` leaves from a fresh one. -/
def sampleSession : Linker :=
  { mLDConfig := some ⟨"libout.so"⟩, mModule := some ⟨"libout.so"⟩, mLinker := some .mk,
    mBuilder := some ⟨⟨"libout.so"⟩, ⟨"libout.so"⟩⟩, mOutputPath := "", mOutputHandler := -1 }

end bcc

/-! ## Helper lemmas -/

namespace bcc

namespace Linker

theorem config_of_set (s : Linker) (c : LinkerConfig) (h : s.mLDConfig ≠ none) :
    s.config c = some ⟨.kDoubleConfig, s, []⟩ := by
  simp [config, h]

theorem config_success_configured (s : Linker) (c : LinkerConfig) (r : Outcome)
    (h : s.config c = some r) (hc : r.code = .kSuccess) : r.state.Configured := by
  cases hs : s.mLDConfig with
  | some ld0 =>
    rw [config_of_set s c (by simp [hs]), Option.some.injEq] at h
    subst h
    simp at hc
  | none =>
    cases hl : c.getLDConfig with
    | none => simp [config, extractFiles, hs, hl] at h
    | some ld =>
      simp only [config, extractFiles, hs, hl, ne_eq, not_true_eq_false, if_false,
        reduceCtorEq, Option.some.injEq] at h
      subst h
      simp [Configured]

theorem config_fresh_valid (s : Linker) (c : LinkerConfig) (ld : mcld.LinkerConfig)
    (hs : s.mLDConfig = none) (hc : c.getLDConfig = some ld) :
    s.config c = some ⟨.kSuccess,
      { s with mLDConfig := some ld, mModule := some ⟨ld.soname⟩,
               mBuilder := some ⟨⟨ld.soname⟩, ld⟩, mLinker := some .mk },
      [.newModule ld.soname, .newIRBuilder ⟨ld.soname⟩ ld, .newLinker, .linkerConfig ld]⟩ := by
  simp [config, extractFiles, hs, hc]

theorem config_returns_iff (s : Linker) (c : LinkerConfig) :
    (∃ r, s.config c = some r) ↔ (s.mLDConfig ≠ none ∨ c.getLDConfig ≠ none) := by
  cases hs : s.mLDConfig with
  | some ld0 => simp [config_of_set s c (by simp [hs])]
  | none =>
    cases hl : c.getLDConfig with
    | none => simp [config, extractFiles, hs, hl]
    | some ld => simp [config_fresh_valid s c ld hs hl]

theorem step_handles (s : Linker) (op : Op) (r : Outcome) (hs : s.mLDConfig ≠ none)
    (h : s.step op = some r) : r.state.handles = s.handles := by
  cases op with
  | config c =>
    simp only [step, config_of_set s c hs, Option.some.injEq] at h
    subst h; rfl
  | addNameSpec n i =>
    simp only [step, addNameSpec] at h
    split at h
    · simp at h
    · split at h <;> (simp only [Option.some.injEq] at h; subst h; rfl)
  | addObject n i =>
    simp only [step, addObject] at h
    split at h
    · simp at h
    · split at h <;> (simp only [Option.some.injEq] at h; subst h; rfl)
  | addObjectMemory m n i =>
    simp only [step, addObjectMemory] at h
    split at h
    · simp at h
    · split at h <;> (simp only [Option.some.injEq] at h; subst h; rfl)
  | addCode m n i sc d f =>
    simp only [step, addCode] at h
    repeat' split at h
    all_goals first
      | (simp at h; done)
      | (simp only [Option.some.injEq] at h; subst h; rfl)
  | setOutput p =>
    simp only [step, Option.some.injEq] at h
    subst h; rfl
  | setOutputHandler p =>
    simp only [step, Option.some.injEq] at h
    subst h; rfl
  | link =>
    simp only [step, link] at h
    repeat' split at h
    all_goals first
      | (simp at h; done)
      | (simp only [Option.some.injEq] at h; subst h; rfl)

theorem run_handles (ops : List Op) : ∀ (s s1 : Linker), s.mLDConfig ≠ none →
    s.run ops = some s1 → s1.handles = s.handles := by
  induction ops with
  | nil =>
    intro s s1 _ h
    simp only [run, Option.some.injEq] at h
    subst h; rfl
  | cons op ops ih =>
    intro s s1 hs h
    simp only [run] at h
    split at h
    · simp at h
    · next r hr =>
      have hh := step_handles s op r hs hr
      have hs2 : r.state.mLDConfig ≠ none := by
        have : r.state.mLDConfig = s.mLDConfig := congrArg Prod.fst hh
        rw [this]; exact hs
      rw [ih r.state s1 hs2 h, hh]

theorem configured_of_handles (s t : Linker) (h : t.handles = s.handles)
    (hs : s.Configured) : t.Configured := by
  simp only [handles, Prod.mk.injEq] at h
  obtain ⟨h1, h2, h3, h4⟩ := h
  simpa [Configured, h1, h2, h3, h4] using hs

theorem configured_of_run (s0 : Linker) (c : LinkerConfig) (r0 : Outcome)
    (h0 : s0.config c = some r0) (hc : r0.code = .kSuccess) (ops : List Op) (s1 : Linker)
    (hrun : r0.state.run ops = some s1) : s1.Configured := by
  have hconf := config_success_configured s0 c r0 h0 hc
  exact configured_of_handles _ _ (run_handles ops r0.state s1 hconf.1 hrun) hconf

theorem newWith_valid (c : LinkerConfig) (r0 : Outcome)
    (h0 : Linker.new.config c = some r0) (hc : r0.code = .kSuccess) :
    newWith c = some (r0.state, r0.calls) := by
  simp [newWith, h0, hc]

theorem step_registration (s : Linker) (op : Op) (hop : op.isRegistration = true) :
    (∀ r, s.step op = some r → r.state = s) ∧
    (s.mBuilder ≠ none → op.wellServed = true → ∃ r, s.step op = some r) := by
  cases hb : s.mBuilder with
  | none =>
    cases op <;> simp_all [Op.isRegistration, step, addNameSpec, addObject, addObjectMemory,
      addCode]
  | some b =>
    cases op with
    | config c => simp [Op.isRegistration] at hop
    | setOutput p => simp [Op.isRegistration] at hop
    | setOutputHandler p => simp [Op.isRegistration] at hop
    | link => simp [Op.isRegistration] at hop
    | addNameSpec n i =>
      cases i <;> simp [step, addNameSpec, hb]
    | addObject n i =>
      cases i <;> simp [step, addObject, hb]
    | addObjectMemory m n i =>
      cases i <;> simp [step, addObjectMemory, hb]
    | addCode m n i sc d f =>
      cases i <;> cases sc <;> cases d <;> cases f <;>
        simp [step, addCode, hb, Op.wellServed]

theorem run_registrations (ops : List Op) : ∀ (s : Linker),
    (∀ op ∈ ops, op.isRegistration = true) →
    (∀ s1, s.run ops = some s1 → s1 = s) ∧
    (s.mBuilder ≠ none → (∀ op ∈ ops, op.wellServed = true) → s.run ops = some s) := by
  induction ops with
  | nil =>
    intro s _
    simp [run]
  | cons op ops ih =>
    intro s hreg
    have hop := hreg op (List.mem_cons_self _ _)
    have hrest : ∀ o ∈ ops, o.isRegistration = true :=
      fun o ho => hreg o (List.mem_cons_of_mem _ ho)
    obtain ⟨hstate, hsome⟩ := step_registration s op hop
    constructor
    · intro s1 h
      simp only [run] at h
      split at h
      · simp at h
      · next r hr =>
        rw [hstate r hr] at h
        exact (ih s hrest).1 s1 h
    · intro hb hws
      obtain ⟨r, hr⟩ := hsome hb (hws op (List.mem_cons_self _ _))
      simp only [run, hr]
      rw [hstate r hr]
      exact (ih s hrest).2 hb (fun o ho => hws o (List.mem_cons_of_mem _ ho))

theorem link_configured (s : Linker) (h : s.Configured) :
    ∃ m b, s.mModule = some m ∧ s.mBuilder = some b ∧
      s.link =
        if s.mOutputPath ≠ "" then
          some ⟨.kSuccess, s, [.link m b, .emitPath s.mOutputPath]⟩
        else if -1 ≠ s.mOutputHandler then
          some ⟨.kSuccess, s, [.link m b, .emitHandler s.mOutputHandler]⟩
        else
          some ⟨.kNotSetUpOutput, s, [.link m b]⟩ := by
  obtain ⟨_, hm, hl, hb⟩ := h
  obtain ⟨m, hm⟩ := Option.ne_none_iff_exists'.mp hm
  obtain ⟨l, hl⟩ := Option.ne_none_iff_exists'.mp hl
  obtain ⟨b, hb⟩ := Option.ne_none_iff_exists'.mp hb
  exact ⟨m, b, hm, hb, by simp [link, hm, hl, hb]⟩

end Linker

end bcc

/-! ## The claims -/

namespace bcc

/-- C1: on a never-configured session (whatever output was set), with a
configuration whose `getLDConfig()` is `NULL`, `extractFiles` reports
`kDelegateLDInfo`, but `Linker::config` drops that code and dereferences the
null `mLDConfig`: it returns no code at all, `kDelegateLDInfo` included. -/
theorem C1_config_null_ldconfig_dereferences (triple pPath : String) (pFileHandler : Int) :
    (Linker.extractFiles ⟨none, none, none, none, pPath, pFileHandler⟩ ⟨triple, none⟩).1
        = .kDelegateLDInfo ∧
    Linker.config ⟨none, none, none, none, pPath, pFileHandler⟩ ⟨triple, none⟩ = none := by
  simp [Linker.config, Linker.extractFiles]

/-- C2: on a session whose four pointers are all `NULL`, whatever output path
or handle is stored, `Linker::link` dereferences the null engine handle: it
returns no code, neither `kNotConfig` nor `kNotSetUpOutput`. -/
theorem C2_link_unconfigured_dereferences (pPath : String) (pFileHandler : Int) :
    Linker.link ⟨none, none, none, none, pPath, pFileHandler⟩ = none := by
  simp [Linker.link]

/-- C4: configuring a fresh session (by `config`, or by the constructor that
takes a configuration) with a configuration whose derived link configuration
is present returns `kSuccess`; after any sequence of input
registrations (which completes whenever the builder hands `addCode` no null
pointer) and no `setOutput`, `link` returns `kNotSetUpOutput`, leaves the
session as it was, and calls neither `emit` overload. -/
theorem C4_link_without_output (c : LinkerConfig) (ld : mcld.LinkerConfig)
    (hc : c.getLDConfig = some ld) :
    ∃ r0, Linker.new.config c = some r0 ∧ r0.code = .kSuccess ∧
      Linker.newWith c = some (r0.state, r0.calls) ∧
      ∀ ops : List Op, (∀ op ∈ ops, op.isRegistration = true) →
        ((∀ op ∈ ops, op.wellServed = true) → ∃ s, r0.state.run ops = some s) ∧
        ∀ s, r0.state.run ops = some s →
          ∃ r, s.link = some r ∧ r.code = .kNotSetUpOutput ∧ r.state = s ∧
            ∀ call ∈ r.calls, call.isEmit = false := by
  have h0 := Linker.config_fresh_valid Linker.new c ld rfl hc
  refine ⟨_, h0, rfl, Linker.newWith_valid c _ h0 rfl, ?_⟩
  intro ops hreg
  obtain ⟨hstate, hsome⟩ := Linker.run_registrations ops
    { Linker.new with mLDConfig := some ld, mModule := some ⟨ld.soname⟩,
                      mBuilder := some ⟨⟨ld.soname⟩, ld⟩, mLinker := some .mk } hreg
  constructor
  · intro hws
    exact ⟨_, hsome (by simp) hws⟩
  · intro s hs
    rw [hstate s hs]
    simp [Linker.link, Linker.new, Call.isEmit]

/-- C4 on `sampleConfig`. -/
theorem C4_link_without_output_witness :
    ∃ r0, Linker.new.config sampleConfig = some r0 ∧ r0.code = .kSuccess ∧
      Linker.newWith sampleConfig = some (r0.state, r0.calls) ∧
      ∀ ops : List Op, (∀ op ∈ ops, op.isRegistration = true) →
        ((∀ op ∈ ops, op.wellServed = true) → ∃ s, r0.state.run ops = some s) ∧
        ∀ s, r0.state.run ops = some s →
          ∃ r, s.link = some r ∧ r.code = .kNotSetUpOutput ∧ r.state = s ∧
            ∀ call ∈ r.calls, call.isEmit = false :=
  C4_link_without_output sampleConfig ⟨"libout.so"⟩ rfl

/-- C5: with `kMaxErrorCode` numbered 12, the table `ErrorString` has only the
12 entries 0..11, so for every code value `kMaxErrorCode + n` the index
`Linker::GetErrorString` reads at is `kMaxErrorCode`, outside the table: the
lookup yields no string, not "(Unknown error code)". -/
theorem C5_max_code_reads_outside_table (n : Nat) :
    GetErrorIndex (ErrorCode.kMaxErrorCode.toNat + n) = 12 ∧
    ErrorString.length = 12 ∧
    GetErrorString (ErrorCode.kMaxErrorCode.toNat + n) = none := by
  have hi : GetErrorIndex (ErrorCode.kMaxErrorCode.toNat + n) = 12 := by
    simp only [GetErrorIndex, ErrorCode.toNat]
    split <;> omega
  refine ⟨hi, by decide, ?_⟩
  rw [GetErrorString, hi]
  decide

/-- C6: on a session with all four pointers set, `link` looks only at the
stored output fields: a non-empty stored path gives `kSuccess` and exactly one
emit, to that path; an empty stored path with a stored handle other than `-1`
gives `kSuccess` and exactly one emit, to that handle. -/
theorem C6_link_emits_stored_output (s : Linker) (h : s.Configured) :
    (s.mOutputPath ≠ "" →
      ∃ r, s.link = some r ∧ r.code = .kSuccess ∧ r.state = s ∧
        r.calls.filter Call.isEmit = [.emitPath s.mOutputPath]) ∧
    (s.mOutputPath = "" → s.mOutputHandler ≠ -1 →
      ∃ r, s.link = some r ∧ r.code = .kSuccess ∧ r.state = s ∧
        r.calls.filter Call.isEmit = [.emitHandler s.mOutputHandler]) := by
  obtain ⟨m, b, _, _, hl⟩ := Linker.link_configured s h
  constructor
  · intro hp
    rw [hl, if_pos hp]
    exact ⟨_, rfl, rfl, rfl, by simp [Call.isEmit]⟩
  · intro hp hh
    rw [hl, if_neg (by simp [hp]), if_pos (Ne.symm hh)]
    exact ⟨_, rfl, rfl, rfl, by simp [Call.isEmit]⟩

/-- C6 on `sampleSession`: with the handle 3 and then the path "a.out" set the
emit goes to "a.out"; with only the handle 3 set it goes to the handle. -/
theorem C6_link_emits_stored_output_witness :
    (∃ r, ((sampleSession.setOutputHandler 3).state.setOutput "a.out").state.link = some r ∧
        r.code = .kSuccess ∧
        r.state = ((sampleSession.setOutputHandler 3).state.setOutput "a.out").state ∧
        r.calls.filter Call.isEmit = [.emitPath "a.out"]) ∧
    (∃ r, (sampleSession.setOutputHandler 3).state.link = some r ∧ r.code = .kSuccess ∧
        r.state = (sampleSession.setOutputHandler 3).state ∧
        r.calls.filter Call.isEmit = [.emitHandler 3]) :=
  ⟨(C6_link_emits_stored_output
      ((sampleSession.setOutputHandler 3).state.setOutput "a.out").state (by decide)).1
      (by decide),
   (C6_link_emits_stored_output (sampleSession.setOutputHandler 3).state (by decide)).2
      (by decide) (by decide)⟩

/-- C7, as stated, fails: on `sampleSession`, after `setOutput("a.out")`
followed by `setOutput(3)`, `link` does not emit to the handle 3; its one emit
goes to the path "a.out", the destination of the earlier call. -/
theorem C7_counterexample :
    sampleSession.Configured ∧ "a.out" ≠ "" ∧ (3 : Int) ≠ -1 ∧
    (¬ ∃ r, ((sampleSession.setOutput "a.out").state.setOutputHandler 3).state.link = some r ∧
        r.calls.filter Call.isEmit = [.emitHandler 3]) ∧
    (∃ r, ((sampleSession.setOutput "a.out").state.setOutputHandler 3).state.link = some r ∧
        r.calls.filter Call.isEmit = [.emitPath "a.out"]) := by
  decide

/-- C7, amended: the path takes precedence.  On a session with all four
pointers set, for a non-empty path `p` and a handle `h` other than `-1`, after
`setOutput(p)` then `setOutput(h)` and after `setOutput(h)` then
`setOutput(p)` alike, `link` returns `kSuccess` and emits exactly once, to the
path `p`; the handle `h` is not used. -/
theorem C7_path_takes_precedence (s : Linker) (p : String) (h : Int)
    (hs : s.Configured) (hp : p ≠ "") (_hh : h ≠ -1) :
    (∃ r, ((s.setOutput p).state.setOutputHandler h).state.link = some r ∧
        r.code = .kSuccess ∧ r.calls.filter Call.isEmit = [.emitPath p]) ∧
    (∃ r, ((s.setOutputHandler h).state.setOutput p).state.link = some r ∧
        r.code = .kSuccess ∧ r.calls.filter Call.isEmit = [.emitPath p]) := by
  constructor
  · obtain ⟨m, b, _, _, hl⟩ :=
      Linker.link_configured ((s.setOutput p).state.setOutputHandler h).state hs
    have hp1 : ((s.setOutput p).state.setOutputHandler h).state.mOutputPath ≠ "" := hp
    rw [hl, if_pos hp1]
    exact ⟨_, rfl, rfl, by simp [Call.isEmit, Linker.setOutput, Linker.setOutputHandler]⟩
  · obtain ⟨m, b, _, _, hl⟩ :=
      Linker.link_configured ((s.setOutputHandler h).state.setOutput p).state hs
    have hp2 : ((s.setOutputHandler h).state.setOutput p).state.mOutputPath ≠ "" := hp
    rw [hl, if_pos hp2]
    exact ⟨_, rfl, rfl, by simp [Call.isEmit, Linker.setOutput, Linker.setOutputHandler]⟩

/-- C7, amended, on `sampleSession` with the path "a.out" and the handle 3. -/
theorem C7_path_takes_precedence_witness :
    (∃ r, ((sampleSession.setOutput "a.out").state.setOutputHandler 3).state.link = some r ∧
        r.code = .kSuccess ∧ r.calls.filter Call.isEmit = [.emitPath "a.out"]) ∧
    (∃ r, ((sampleSession.setOutputHandler 3).state.setOutput "a.out").state.link = some r ∧
        r.code = .kSuccess ∧ r.calls.filter Call.isEmit = [.emitPath "a.out"]) :=
  C7_path_takes_precedence sampleSession "a.out" 3 (by decide) (by decide) (by decide)

/-- C8: on a session with all four pointers set, each registration makes
exactly one builder call, `ReadInput`, leaves every field of the session as it
was, and turns the returned pointer into its own code: `NULL` gives
`kFindNameSpec` from `addNameSpec`, `kOpenObjectFile` from `addObject(path)`
and `kOpenMemory` from `addObject(memory, size)`; any other pointer gives
`kSuccess`. -/
theorem C8_registration_codes (s : Linker) (h : s.Configured)
    (pNameSpec pObjectPath : String) (pMemory pSize : Nat) :
    s.addNameSpec pNameSpec none
      = some ⟨.kFindNameSpec, s, [.ReadInputNameSpec pNameSpec]⟩ ∧
    (∀ input : mcld.Input, s.addNameSpec pNameSpec (some input)
      = some ⟨.kSuccess, s, [.ReadInputNameSpec pNameSpec]⟩) ∧
    s.addObject pObjectPath none
      = some ⟨.kOpenObjectFile, s, [.ReadInputPath pObjectPath pObjectPath]⟩ ∧
    (∀ input : mcld.Input, s.addObject pObjectPath (some input)
      = some ⟨.kSuccess, s, [.ReadInputPath pObjectPath pObjectPath]⟩) ∧
    s.addObjectMemory pMemory pSize none
      = some ⟨.kOpenMemory, s, [.ReadInputMemory "NAN" pMemory pSize]⟩ ∧
    (∀ input : mcld.Input, s.addObjectMemory pMemory pSize (some input)
      = some ⟨.kSuccess, s, [.ReadInputMemory "NAN" pMemory pSize]⟩) := by
  obtain ⟨_, _, _, hb⟩ := h
  obtain ⟨b, hb⟩ := Option.ne_none_iff_exists'.mp hb
  simp [Linker.addNameSpec, Linker.addObject, Linker.addObjectMemory, hb]

/-- C8 on `sampleSession`. -/
theorem C8_registration_codes_witness :
    sampleSession.addNameSpec "m" none
      = some ⟨.kFindNameSpec, sampleSession, [.ReadInputNameSpec "m"]⟩ ∧
    (∀ input : mcld.Input, sampleSession.addNameSpec "m" (some input)
      = some ⟨.kSuccess, sampleSession, [.ReadInputNameSpec "m"]⟩) ∧
    sampleSession.addObject "a.o" none
      = some ⟨.kOpenObjectFile, sampleSession, [.ReadInputPath "a.o" "a.o"]⟩ ∧
    (∀ input : mcld.Input, sampleSession.addObject "a.o" (some input)
      = some ⟨.kSuccess, sampleSession, [.ReadInputPath "a.o" "a.o"]⟩) ∧
    sampleSession.addObjectMemory 4096 64 none
      = some ⟨.kOpenMemory, sampleSession, [.ReadInputMemory "NAN" 4096 64]⟩ ∧
    (∀ input : mcld.Input, sampleSession.addObjectMemory 4096 64 (some input)
      = some ⟨.kSuccess, sampleSession, [.ReadInputMemory "NAN" 4096 64]⟩) :=
  C8_registration_codes sampleSession (by decide) "m" "a.o" 4096 64

/-- C9: `kOpenMemory`, the code `addObject(memory, size)` returns on failure,
is a defined code (below `kMaxErrorCode`), yet `Linker::GetErrorString` gives
it "(Unknown error code)": the table has no entry for it.  The rest of the
claim holds: every defined code gets a non-empty string, and no two defined
codes get the same one. -/
theorem C9_open_memory_gets_unknown_string :
    (sampleSession.addObjectMemory 4096 64 none).map Outcome.code = some .kOpenMemory ∧
    ErrorCode.kOpenMemory.toNat < ErrorCode.kMaxErrorCode.toNat ∧
    GetErrorString ErrorCode.kOpenMemory.toNat = some "(Unknown error code)" ∧
    (∀ c ∈ ErrorCode.defined, ∃ str, GetErrorString c.toNat = some str ∧ str ≠ "") ∧
    (∀ c ∈ ErrorCode.defined, ∀ d ∈ ErrorCode.defined,
      GetErrorString c.toNat = GetErrorString d.toNat → c = d) := by
  refine ⟨by decide, by decide, by decide, ?_, by decide⟩
  intro c hc
  simp only [ErrorCode.defined, List.mem_cons, List.mem_singleton, List.not_mem_nil,
    or_false] at hc
  rcases hc with h | h | h | h | h | h | h | h | h | h | h | h <;> subst h <;>
    exact ⟨_, rfl, by decide⟩

/-- C10: after a `config` that returned `kSuccess`, every further `config`
returns `kDoubleConfig` and leaves the whole session as it was, and along
every later sequence of operations (`config`, the registrations, `setOutput`,
`link`) the stored `mLDConfig`, `mModule`, `mLinker` and `mBuilder` are, after
each operation that returns, what they were before it and what that `config`
stored. -/
theorem C10_handles_never_replaced (s0 : Linker) (c : LinkerConfig) (r0 : Outcome)
    (h0 : s0.config c = some r0) (hc : r0.code = .kSuccess) :
    (∀ c2, r0.state.config c2 = some ⟨.kDoubleConfig, r0.state, []⟩) ∧
    ∀ (ops : List Op) (s1 : Linker), r0.state.run ops = some s1 →
      s1.handles = r0.state.handles ∧
      (∀ c2, s1.config c2 = some ⟨.kDoubleConfig, s1, []⟩) ∧
      ∀ (op : Op) (r : Outcome), s1.step op = some r → r.state.handles = s1.handles := by
  have hconf := Linker.config_success_configured s0 c r0 h0 hc
  have hld : r0.state.mLDConfig ≠ none := hconf.1
  refine ⟨fun c2 => Linker.config_of_set _ c2 hld, ?_⟩
  intro ops s1 hrun
  have hh := Linker.run_handles ops r0.state s1 hld hrun
  have hld1 : s1.mLDConfig ≠ none := by
    have : s1.mLDConfig = r0.state.mLDConfig := congrArg Prod.fst hh
    rw [this]; exact hld
  exact ⟨hh, fun c2 => Linker.config_of_set _ c2 hld1,
    fun op r hr => Linker.step_handles s1 op r hld1 hr⟩

/-- C10 on a fresh session configured with `sampleConfig`. -/
theorem C10_handles_never_replaced_witness :
    (∀ c2, sampleSession.config c2 = some ⟨.kDoubleConfig, sampleSession, []⟩) ∧
    ∀ (ops : List Op) (s1 : Linker), sampleSession.run ops = some s1 →
      s1.handles = sampleSession.handles ∧
      (∀ c2, s1.config c2 = some ⟨.kDoubleConfig, s1, []⟩) ∧
      ∀ (op : Op) (r : Outcome), s1.step op = some r → r.state.handles = s1.handles :=
  C10_handles_never_replaced Linker.new sampleConfig
    ⟨.kSuccess, sampleSession,
      [.newModule "libout.so", .newIRBuilder ⟨"libout.so"⟩ ⟨"libout.so"⟩, .newLinker,
       .linkerConfig ⟨"libout.so"⟩]⟩
    (by decide) rfl

end bcc
